import Mathlib

/-!
Shallow embedding of the kanban-fullstack task service
(`src/backend/server.js`, identical in logic to the unnamed ESM copy) and of
the client-side notification evaluator (`frontend/src/App.js`).

Timestamps are modelled as integers (milliseconds, as JavaScript `Date`
arithmetic uses); the SQL interval `24 hours` is the constant `hour24`.
The relational `tasks` table is a `List Task`; SQL `WHERE` clauses become
`List.filter` / `List.find?`, `UPDATE ... WHERE` becomes a `List.map` that
rewrites the matching rows, and `ORDER BY` becomes `List.insertionSort`.
HTTP outcomes are `ApiResult`: status code plus payload or error message.
-/

namespace Kanban

/-- A row of the `tasks` table, with the JSON field names the server returns
(`SELECT *`). `due_date` and `reminder_date` are nullable timestamps. -/
structure Task where
  id : Nat
  user_id : Nat
  title : String
  description : String
  status : String
  priority : String
  due_date : Option Int
  reminder_date : Option Int
  is_reminder_sent : Bool
  created_at : Int
  updated_at : Int
deriving DecidableEq

/-- A row of the `users` table. -/
structure User where
  id : Nat
  email : String
  password_hash : String
deriving DecidableEq

/-- Outcome of a request: HTTP status code with a payload, or with an error
message (the `msg` field of the JSON error bodies). -/
inductive ApiResult (α : Type) where
  | ok (code : Nat) (val : α)
  | err (code : Nat) (msg : String)
deriving DecidableEq

/-- JavaScript's whitespace class as used by `String.prototype.trim`
(restricted to the common ASCII whitespace characters). -/
def jsWhitespace (c : Char) : Bool :=
  c == ' ' || c == '\t' || c == '\n' || c == '\r'

/-- JavaScript `s.trim()`: strip leading and trailing whitespace, modelled
structurally over the character list. -/
def jsTrim (s : String) : String :=
  ⟨((s.data.dropWhile jsWhitespace).reverse.dropWhile jsWhitespace).reverse⟩

/-- JavaScript `x || d` on an optional string: both `undefined` and the empty
string are falsy and fall through to the default. -/
def jsOr (s : Option String) (d : String) : String :=
  match s with
  | none => d
  | some v => if v = "" then d else v

/-- The payload of the JWT issued on login: `{ id: user.id, email: user.email }`. -/
structure LoginOk where
  token_id : Nat
  token_email : String
deriving DecidableEq

/-- `POST /api/auth/login`. `hashMatch` abstracts `bcrypt.compare(password, hash)`;
the route looks the user up by email and rejects with one generic message both
when the email is unknown and when the hash does not match. -/
def login (hashMatch : String → String → Bool) (users : List User)
    (email password : String) : ApiResult LoginOk :=
  match users.find? (fun u => u.email == email) with
  | none => .err 400 "Email ou mot de passe incorrect."
  | some user =>
    if hashMatch password user.password_hash then
      .ok 200 { token_id := user.id, token_email := user.email }
    else
      .err 400 "Email ou mot de passe incorrect."

/-- `GET /api/tasks`: `SELECT * FROM tasks WHERE user_id = $1 ORDER BY id ASC`. -/
def listTasks (uid : Nat) (store : List Task) : List Task :=
  List.insertionSort (fun a b => a.id ≤ b.id) (store.filter (fun t => t.user_id == uid))

/-- The SQL interval `24 hours` in milliseconds. -/
def hour24 : Int := 86400000

/-- The `WHERE` clause of `GET /api/tasks/due-soon`:
`user_id = $1 AND due_date IS NOT NULL AND due_date <= NOW() + INTERVAL '24 hours'
AND status != 'done'`. Note the query has no lower bound on `due_date`. -/
def dueSoonPred (now : Int) (uid : Nat) (t : Task) : Bool :=
  t.user_id == uid &&
  (match t.due_date with
   | some d => decide (d ≤ now + hour24)
   | none => false) &&
  t.status != "done"

/-- Sort key for `ORDER BY due_date ASC` (every selected row has a non-null
due date, so the default is never consulted). -/
def dueKey (t : Task) : Int := t.due_date.getD 0

/-- `GET /api/tasks/due-soon`. -/
def listDueSoon (now : Int) (uid : Nat) (store : List Task) : List Task :=
  List.insertionSort (fun a b => dueKey a ≤ dueKey b) (store.filter (dueSoonPred now uid))

/-- Body of `POST /api/tasks`; `none` is an absent (`undefined`) field.
The route does no date validation of its own, so the timestamp fields are
modelled as already-parsed instants. -/
structure CreateReq where
  title : Option String
  description : Option String
  due_date : Option Int
  reminder_date : Option Int
  priority : Option String
deriving DecidableEq

/-- `POST /api/tasks`: `INSERT INTO tasks (title, description, user_id, status,
due_date, reminder_date, priority) VALUES ($1,$2,$3,'todo',$4,$5,$6) RETURNING *`
with `description || ''`, `due_date || null`, `reminder_date || null`,
`priority || 'medium'`, and no validation of the title. Modelled from the spec
(the SQL schema is not among the sources): the column defaults
`is_reminder_sent = false` and `created_at`/`updated_at = CURRENT_TIMESTAMP`,
and the `NOT NULL` constraint on `title` (an absent title makes the insert
fail, which the route surfaces as the 500 branch). -/
def createTask (uid : Nat) (req : CreateReq) (store : List Task)
    (newId : Nat) (now : Int) : ApiResult Task × List Task :=
  match req.title with
  | none => (.err 500 "Erreur serveur lors de la création de la tâche", store)
  | some title =>
    let t : Task :=
      { id := newId
        user_id := uid
        title := title
        description := jsOr req.description ""
        status := "todo"
        due_date := req.due_date
        reminder_date := req.reminder_date
        priority := jsOr req.priority "medium"
        is_reminder_sent := false
        created_at := now
        updated_at := now }
    (.ok 201 t, store ++ [t])

/-- Body of `PUT /api/tasks/:id`; date fields arrive as raw strings and are
parsed by the route. -/
structure UpdateReq where
  title : Option String
  description : Option String
  status : Option String
  due_date : Option String
  reminder_date : Option String
  priority : Option String
deriving DecidableEq

/-- The route's date validation, `if (field) { d = new Date(field); if
(isNaN(d.getTime())) return 400; }`: the outer `none` means the parse failed
(`NaN`), `some v` carries the value that will be stored (`none` when the field
was absent or empty, hence falsy). `parseDate` abstracts `new Date(s)`. -/
def parseDateField (parseDate : String → Option Int) (field : Option String) :
    Option (Option Int) :=
  match field with
  | none => some none
  | some s =>
    if s = "" then some none
    else
      match parseDate s with
      | some t => some (some t)
      | none => none

/-- The ownership filter `id = $1 AND user_id = $2` used by the per-task routes. -/
def taskMatch (tid uid : Nat) (t : Task) : Bool :=
  t.id == tid && t.user_id == uid

/-- The `SET` clause of the full-replace `UPDATE` of `PUT /api/tasks/:id`. -/
def updateRow (title description status : String) (due rem : Option Int)
    (priority : String) (now : Int) (t : Task) : Task :=
  { t with
      title := title
      description := description
      status := status
      due_date := due
      reminder_date := rem
      priority := priority
      updated_at := now }

/-- `PUT /api/tasks/:id`: validation in source order (title, status, priority,
due date, reminder date), then the ownership `SELECT`, then the full-replace
`UPDATE ... SET ..., updated_at = CURRENT_TIMESTAMP WHERE id = $7 AND
user_id = $8 RETURNING *` (rewriting every matching row, as SQL does), and a
second `NotFound` if the update touched no row. -/
def updateTask (parseDate : String → Option Int) (uid tid : Nat)
    (req : UpdateReq) (store : List Task) (now : Int) : ApiResult Task × List Task :=
  match req.title with
  | none => (.err 400 "Le titre est requis.", store)
  | some title =>
    if jsTrim title = "" then (.err 400 "Le titre est requis.", store)
    else
      match req.status with
      | none => (.err 400 "Statut invalide.", store)
      | some status =>
        if !(["todo", "in-progress", "done"].contains status) then
          (.err 400 "Statut invalide.", store)
        else if (match req.priority with
                 | none => false
                 | some p => p != "" && !(["low", "medium", "high"].contains p)) then
          (.err 400 "Priorité invalide.", store)
        else
          match parseDateField parseDate req.due_date with
          | none => (.err 400 "Date d\x27échéance invalide.", store)
          | some parsedDueDate =>
            match parseDateField parseDate req.reminder_date with
            | none => (.err 400 "Date de rappel invalide.", store)
            | some parsedReminderDate =>
              match store.find? (taskMatch tid uid) with
              | none => (.err 404 "Tâche non trouvée ou non autorisée.", store)
              | some _ =>
                let newStore := store.map (fun t =>
                  if taskMatch tid uid t then
                    updateRow (jsTrim title) (jsOr req.description "") status
                      parsedDueDate parsedReminderDate (jsOr req.priority "medium") now t
                  else t)
                match newStore.find? (taskMatch tid uid) with
                | none => (.err 404 "Tâche non trouvée ou non autorisée.", store)
                | some updated => (.ok 200 updated, newStore)

/-- `DELETE /api/tasks/:id`: `DELETE FROM tasks WHERE id = $1 AND user_id = $2`;
`rowCount === 0` yields 404, otherwise 204 with no body. -/
def deleteTask (uid tid : Nat) (store : List Task) : ApiResult Unit × List Task :=
  let remaining := store.filter (fun t => !taskMatch tid uid t)
  if remaining.length == store.length then
    (.err 404 "Tâche non trouvée ou non autorisée.", store)
  else
    (.ok 204 (), remaining)

/-- The row rewrite of `UPDATE tasks SET is_reminder_sent = true`. -/
def setReminderSent (t : Task) : Task :=
  { t with is_reminder_sent := true }

/-- `POST /api/tasks/:id/mark-reminder-sent`: `UPDATE tasks SET
is_reminder_sent = true WHERE id = $1 AND user_id = $2 RETURNING *`; an empty
row set yields 404, otherwise the updated row is returned. -/
def markReminderSent (uid tid : Nat) (store : List Task) : ApiResult Task × List Task :=
  let newStore := store.map (fun t => if taskMatch tid uid t then setReminderSent t else t)
  match newStore.find? (taskMatch tid uid) with
  | none => (.err 404 "Tâche non trouvée ou non autorisée.", newStore)
  | some updated => (.ok 200 updated, newStore)

/-- A client-side notification as pushed by `checkReminders`:
`{ id: task.id, message, type }`. -/
structure Notification where
  id : Nat
  message : String
  type : String
deriving DecidableEq

/-- `isOverdue(dueDate)`: `new Date(dueDate) < new Date()`. -/
def isOverdue (now : Int) (dueDate : Option Int) : Bool :=
  match dueDate with
  | none => false
  | some due => decide (due < now)

/-- `isDueSoon(dueDate)`: `0 < diffHours && diffHours <= 24` with
`diffHours = (due - now) / 3600000`, stated directly on milliseconds (the two
forms agree on integer inputs). -/
def isDueSoon (now : Int) (dueDate : Option Int) : Bool :=
  match dueDate with
  | none => false
  | some due => decide (0 < due - now) && decide (due - now ≤ hour24)

/-- The notifications one task contributes in a `checkReminders` pass: a
`reminder` entry when the reminder is due, unsent and the task not done, and
independently an `overdue` entry, or else a `due-soon` entry, for the due date. -/
def taskNotifications (now : Int) (task : Task) : List Notification :=
  (match task.reminder_date with
   | some reminderTime =>
     if !task.is_reminder_sent && task.status != "done" && decide (reminderTime ≤ now) then
       [{ id := task.id, message := "Rappel: " ++ task.title, type := "reminder" }]
     else []
   | none => []) ++
  (if task.due_date.isSome && task.status != "done" then
     if isOverdue now task.due_date then
       [{ id := task.id, message := "En retard: " ++ task.title, type := "overdue" }]
     else if isDueSoon now task.due_date then
       [{ id := task.id, message := "Échéance proche: " ++ task.title, type := "due-soon" }]
     else []
   else [])

/-- `checkReminders(currentTasks)`: collect the new notifications and, when
there are any, append them to the working set. -/
def checkReminders (now : Int) (currentTasks : List Task)
    (notifications : List Notification) : List Notification :=
  let newNotifications := currentTasks.flatMap (taskNotifications now)
  if newNotifications.length > 0 then notifications ++ newNotifications
  else notifications

/-- `dismissNotification(notificationId)`:
`setNotifications(prev => prev.filter(n => n.id !== notificationId))`. -/
def dismissNotification (notificationId : Nat)
    (notifications : List Notification) : List Notification :=
  notifications.filter (fun n => n.id != notificationId)

/-! ## Helper lemmas -/

/-- `find?` over a map that rewrites exactly the rows satisfying `p` with a
`p`-preserving rewrite finds the rewritten first match. -/
theorem find?_map_if {α : Type} (p : α → Bool) (g : α → α)
    (hp : ∀ a, p (g a) = p a) :
    ∀ l : List α, (l.map (fun t => if p t then g t else t)).find? p = (l.find? p).map g := by
  intro l
  induction l with
  | nil => rfl
  | cons x xs ih =>
    by_cases hx : p x = true
    · rw [List.map_cons, if_pos hx, List.find?_cons_of_pos _ ((hp x).trans hx),
        List.find?_cons_of_pos _ hx, Option.map_some']
    · rw [List.map_cons, if_neg hx, List.find?_cons_of_neg _ hx,
        List.find?_cons_of_neg _ hx, ih]

/-- A map that rewrites only rows satisfying `p` is the identity when no row
satisfies `p`. -/
theorem map_if_eq_self {α : Type} (p : α → Bool) (g : α → α) (l : List α)
    (h : ∀ a ∈ l, p a = false) :
    l.map (fun t => if p t then g t else t) = l := by
  have := List.map_congr_left (l := l) (f := fun t => if p t then g t else t) (g := id)
    (fun a ha => by simp [h a ha])
  rw [this, List.map_id]

/-- `updateRow` does not touch the ownership columns. -/
theorem taskMatch_updateRow (tid uid : Nat) (title description status : String)
    (due rem : Option Int) (priority : String) (now : Int) (t : Task) :
    taskMatch tid uid (updateRow title description status due rem priority now t) =
      taskMatch tid uid t := rfl

/-- `setReminderSent` does not touch the ownership columns. -/
theorem taskMatch_setReminderSent (tid uid : Nat) (t : Task) :
    taskMatch tid uid (setReminderSent t) = taskMatch tid uid t := rfl

/-- Unfolding of the due-soon `WHERE` clause into propositional form. -/
theorem dueSoonPred_iff (now : Int) (uid : Nat) (t : Task) :
    dueSoonPred now uid t = true ↔
      t.user_id = uid ∧ (∃ d, t.due_date = some d ∧ d ≤ now + hour24) ∧
      t.status ≠ "done" := by
  cases hd : t.due_date with
  | none => simp [dueSoonPred, hd]
  | some d => simp [dueSoonPred, hd, and_assoc]

/-- Pointwise `Forall₂` between a list and its image under a map. -/
theorem forall₂_map_self {α : Type} {R : α → α → Prop} (f : α → α)
    (h : ∀ a, R a (f a)) : ∀ l : List α, List.Forall₂ R l (l.map f)
  | [] => .nil
  | x :: xs => .cons (h x) (forall₂_map_self f h xs)

/-- Success path of `markReminderSent`: when the ownership lookup finds a row,
the result is 200 with that row's flag set, and the store rewritten. -/
theorem markReminderSent_found (uid tid : Nat) (store : List Task) (task : Task)
    (hfound : store.find? (taskMatch tid uid) = some task) :
    markReminderSent uid tid store =
      (.ok 200 (setReminderSent task),
       store.map (fun t => if taskMatch tid uid t then setReminderSent t else t)) := by
  rw [markReminderSent]
  simp only [find?_map_if (taskMatch tid uid) setReminderSent
    (taskMatch_setReminderSent tid uid), hfound, Option.map_some']

/-- The row rewrite of `markReminderSent` is idempotent. -/
theorem markRewrite_idem (uid tid : Nat) (t : Task) :
    (fun t => if taskMatch tid uid t then setReminderSent t else t)
      ((fun t => if taskMatch tid uid t then setReminderSent t else t) t) =
    (fun t => if taskMatch tid uid t then setReminderSent t else t) t := by
  by_cases h : taskMatch tid uid t = true
  · simp [h, taskMatch_setReminderSent, setReminderSent]
  · simp [h]

/-- The first validation gate of `PUT /api/tasks/:id`:
`!title || !title.trim()`. -/
def titleMissing (req : UpdateReq) : Bool :=
  match req.title with
  | none => true
  | some t => jsTrim t == ""

/-- The second validation gate: `!status || !enum.includes(status)`. -/
def statusBad (req : UpdateReq) : Bool :=
  match req.status with
  | none => true
  | some s => !(["todo", "in-progress", "done"].contains s)

/-- The third validation gate: `priority && !enum.includes(priority)`. -/
def priorityBad (req : UpdateReq) : Bool :=
  match req.priority with
  | none => false
  | some p => p != "" && !(["low", "medium", "high"].contains p)

/-- The fourth validation gate: due date present but unparsable. -/
def dueDateBad (parseDate : String → Option Int) (req : UpdateReq) : Bool :=
  (parseDateField parseDate req.due_date).isNone

/-- The fifth validation gate: reminder date present but unparsable. -/
def reminderDateBad (parseDate : String → Option Int) (req : UpdateReq) : Bool :=
  (parseDateField parseDate req.reminder_date).isNone

/-- Failing the title gate short-circuits `updateTask` for every store. -/
theorem updateTask_err_title (parseDate : String → Option Int) (uid tid : Nat)
    (req : UpdateReq) (store : List Task) (now : Int)
    (h : titleMissing req = true) :
    updateTask parseDate uid tid req store now = (.err 400 "Le titre est requis.", store) := by
  cases hT : req.title with
  | none => simp [updateTask, hT]
  | some t =>
    simp [titleMissing, hT] at h
    simp [updateTask, hT, h]

/-- Passing the title gate but failing the status gate yields the status error. -/
theorem updateTask_err_status (parseDate : String → Option Int) (uid tid : Nat)
    (req : UpdateReq) (store : List Task) (now : Int)
    (h1 : titleMissing req = false) (h2 : statusBad req = true) :
    updateTask parseDate uid tid req store now = (.err 400 "Statut invalide.", store) := by
  cases hT : req.title with
  | none => simp [titleMissing, hT] at h1
  | some t =>
    simp [titleMissing, hT] at h1
    cases hS : req.status with
    | none => simp [updateTask, hT, h1, hS]
    | some s =>
      simp [statusBad, hS] at h2
      simp [updateTask, hT, h1, hS, h2]

/-- Passing title and status but failing the priority gate yields the
priority error. -/
theorem updateTask_err_priority (parseDate : String → Option Int) (uid tid : Nat)
    (req : UpdateReq) (store : List Task) (now : Int)
    (h1 : titleMissing req = false) (h2 : statusBad req = false)
    (h3 : priorityBad req = true) :
    updateTask parseDate uid tid req store now = (.err 400 "Priorité invalide.", store) := by
  cases hT : req.title with
  | none => simp [titleMissing, hT] at h1
  | some t =>
    simp [titleMissing, hT] at h1
    cases hS : req.status with
    | none => simp [statusBad, hS] at h2
    | some s =>
      simp only [statusBad, hS] at h2
      cases hP : req.priority with
      | none => simp [priorityBad, hP] at h3
      | some p =>
        simp only [priorityBad, hP] at h3
        simp only [updateTask, hT, hS, hP]
        rw [if_neg h1, if_neg (by rw [h2]; decide), if_pos h3]

/-- Passing the first three gates but failing the due-date parse yields the
due-date error. -/
theorem updateTask_err_due (parseDate : String → Option Int) (uid tid : Nat)
    (req : UpdateReq) (store : List Task) (now : Int)
    (h1 : titleMissing req = false) (h2 : statusBad req = false)
    (h3 : priorityBad req = false) (h4 : dueDateBad parseDate req = true) :
    updateTask parseDate uid tid req store now =
      (.err 400 "Date d\x27échéance invalide.", store) := by
  cases hT : req.title with
  | none => simp [titleMissing, hT] at h1
  | some t =>
    simp [titleMissing, hT] at h1
    cases hS : req.status with
    | none => simp [statusBad, hS] at h2
    | some s =>
      simp only [statusBad, hS] at h2
      simp only [dueDateBad] at h4
      cases hpd : parseDateField parseDate req.due_date with
      | some pdd => rw [hpd] at h4; exact absurd h4 (by simp)
      | none =>
        cases hP : req.priority with
        | none =>
          simp only [updateTask, hT, hS, hP, hpd]
          rw [if_neg h1, if_neg (by rw [h2]; decide), if_neg (by decide)]
        | some p =>
          simp only [priorityBad, hP] at h3
          simp only [updateTask, hT, hS, hP, hpd]
          rw [if_neg h1, if_neg (by rw [h2]; decide), if_neg (by rw [h3]; decide)]

/-- Passing the first four gates but failing the reminder-date parse yields
the reminder-date error. -/
theorem updateTask_err_reminder (parseDate : String → Option Int) (uid tid : Nat)
    (req : UpdateReq) (store : List Task) (now : Int)
    (h1 : titleMissing req = false) (h2 : statusBad req = false)
    (h3 : priorityBad req = false) (h4 : dueDateBad parseDate req = false)
    (h5 : reminderDateBad parseDate req = true) :
    updateTask parseDate uid tid req store now =
      (.err 400 "Date de rappel invalide.", store) := by
  cases hT : req.title with
  | none => simp [titleMissing, hT] at h1
  | some t =>
    simp [titleMissing, hT] at h1
    cases hS : req.status with
    | none => simp [statusBad, hS] at h2
    | some s =>
      simp only [statusBad, hS] at h2
      simp only [dueDateBad] at h4
      simp only [reminderDateBad] at h5
      cases hpd : parseDateField parseDate req.due_date with
      | none => rw [hpd] at h4; exact absurd h4 (by simp)
      | some pdd =>
        cases hpr : parseDateField parseDate req.reminder_date with
        | some prd => rw [hpr] at h5; exact absurd h5 (by simp)
        | none =>
          cases hP : req.priority with
          | none =>
            simp only [updateTask, hT, hS, hP, hpd, hpr]
            rw [if_neg h1, if_neg (by rw [h2]; decide), if_neg (by decide)]
          | some p =>
            simp only [priorityBad, hP] at h3
            simp only [updateTask, hT, hS, hP, hpd, hpr]
            rw [if_neg h1, if_neg (by rw [h2]; decide), if_neg (by rw [h3]; decide)]

/-- When all five validation gates pass, `updateTask` reduces to the ownership
lookup followed by the row rewrite. -/
theorem updateTask_valid (parseDate : String → Option Int) (uid tid : Nat)
    (req : UpdateReq) (store : List Task) (now : Int)
    (title status : String) (pdd prd : Option Int)
    (hT : req.title = some title) (hTr : ¬jsTrim title = "")
    (hS : req.status = some status)
    (hSc : (["todo", "in-progress", "done"].contains status) = true)
    (hP : priorityBad req = false)
    (hD : parseDateField parseDate req.due_date = some pdd)
    (hR : parseDateField parseDate req.reminder_date = some prd) :
    updateTask parseDate uid tid req store now =
      match store.find? (taskMatch tid uid) with
      | none => (.err 404 "Tâche non trouvée ou non autorisée.", store)
      | some _ =>
        match (store.map (fun t => if taskMatch tid uid t then
            updateRow (jsTrim title) (jsOr req.description "") status pdd prd
              (jsOr req.priority "medium") now t else t)).find? (taskMatch tid uid) with
        | none => (.err 404 "Tâche non trouvée ou non autorisée.", store)
        | some updated => (.ok 200 updated,
            store.map (fun t => if taskMatch tid uid t then
              updateRow (jsTrim title) (jsOr req.description "") status pdd prd
                (jsOr req.priority "medium") now t else t)) := by
  have hP' : (match req.priority with
      | none => false
      | some p => p != "" && !(["low", "medium", "high"].contains p)) = false := hP
  simp only [updateTask, hT, hTr, hS, hSc, hP', hD, hR, if_neg, Bool.not_true,
    Bool.false_eq_true, if_false]

/-- When all validation gates pass, the request's fields can be read off. -/
theorem gates_pass_components (parseDate : String → Option Int) (req : UpdateReq)
    (h1 : titleMissing req = false) (h2 : statusBad req = false)
    (h4 : dueDateBad parseDate req = false) (h5 : reminderDateBad parseDate req = false) :
    ∃ title status pdd prd,
      req.title = some title ∧ ¬jsTrim title = "" ∧
      req.status = some status ∧ (["todo", "in-progress", "done"].contains status) = true ∧
      parseDateField parseDate req.due_date = some pdd ∧
      parseDateField parseDate req.reminder_date = some prd := by
  cases hT : req.title with
  | none => simp [titleMissing, hT] at h1
  | some t =>
    simp [titleMissing, hT] at h1
    cases hS : req.status with
    | none => simp [statusBad, hS] at h2
    | some s =>
      simp only [statusBad, hS] at h2
      cases hpd : parseDateField parseDate req.due_date with
      | none => simp [dueDateBad, hpd] at h4
      | some pdd =>
        cases hpr : parseDateField parseDate req.reminder_date with
        | none => simp [reminderDateBad, hpr] at h5
        | some prd =>
          refine ⟨t, s, pdd, prd, rfl, h1, rfl, ?_, rfl, rfl⟩
          have hd : s = "todo" ∨ s = "in-progress" ∨ s = "done" := by
            simp at h2
            tauto
          simpa using hd

/-- A concrete stand-in for `new Date(s)` used by the witnesses: non-empty
strings of decimal digits parse to the corresponding instant, everything else
is `NaN`. -/
def natParse (s : String) : Option Int :=
  if s.data ≠ [] ∧ s.data.all (fun c => c.isDigit) then
    some (Int.ofNat (s.data.foldl (fun n c => 10 * n + (c.toNat - 48)) 0))
  else none

/-! ## Claims -/

/-- C3: UpdateTask reports validation failures in the exact precedence
title → status → priority → due date → reminder date: each gate's error is
returned whenever that gate fails and all earlier gates pass, whatever the
later fields hold; and every validation failure returns the identical store
for EVERY store — the result does not depend on the store at all, so no
ownership lookup or store mutation precedes the five validations. -/
theorem updateTask_validation_precedence (parseDate : String → Option Int)
    (uid tid : Nat) (req : UpdateReq) (now : Int) :
    (titleMissing req = true →
      ∀ store, updateTask parseDate uid tid req store now =
        (.err 400 "Le titre est requis.", store)) ∧
    (titleMissing req = false → statusBad req = true →
      ∀ store, updateTask parseDate uid tid req store now =
        (.err 400 "Statut invalide.", store)) ∧
    (titleMissing req = false → statusBad req = false → priorityBad req = true →
      ∀ store, updateTask parseDate uid tid req store now =
        (.err 400 "Priorité invalide.", store)) ∧
    (titleMissing req = false → statusBad req = false → priorityBad req = false →
      dueDateBad parseDate req = true →
      ∀ store, updateTask parseDate uid tid req store now =
        (.err 400 "Date d\x27échéance invalide.", store)) ∧
    (titleMissing req = false → statusBad req = false → priorityBad req = false →
      dueDateBad parseDate req = false → reminderDateBad parseDate req = true →
      ∀ store, updateTask parseDate uid tid req store now =
        (.err 400 "Date de rappel invalide.", store)) :=
  ⟨fun h store => updateTask_err_title parseDate uid tid req store now h,
   fun h1 h2 store => updateTask_err_status parseDate uid tid req store now h1 h2,
   fun h1 h2 h3 store => updateTask_err_priority parseDate uid tid req store now h1 h2 h3,
   fun h1 h2 h3 h4 store => updateTask_err_due parseDate uid tid req store now h1 h2 h3 h4,
   fun h1 h2 h3 h4 h5 store =>
     updateTask_err_reminder parseDate uid tid req store now h1 h2 h3 h4 h5⟩

/-- C3 witness: five concrete requests, each failing its gate while every
later field is also invalid, so the earlier error masks the later ones;
the empty store stands for an arbitrary one. -/
theorem updateTask_validation_precedence_witness :
    updateTask natParse 1 1 ⟨some " ", none, some "bogus", some "x", some "x", some "urgent"⟩
        [] 0 = (.err 400 "Le titre est requis.", []) ∧
    updateTask natParse 1 1 ⟨some "ok", none, some "bogus", some "x", some "x", some "urgent"⟩
        [] 0 = (.err 400 "Statut invalide.", []) ∧
    updateTask natParse 1 1 ⟨some "ok", none, some "todo", some "x", some "x", some "urgent"⟩
        [] 0 = (.err 400 "Priorité invalide.", []) ∧
    updateTask natParse 1 1 ⟨some "ok", none, some "todo", some "x", some "x", some "high"⟩
        [] 0 = (.err 400 "Date d\x27échéance invalide.", []) ∧
    updateTask natParse 1 1 ⟨some "ok", none, some "todo", some "7", some "x", some "high"⟩
        [] 0 = (.err 400 "Date de rappel invalide.", []) :=
  ⟨(updateTask_validation_precedence natParse 1 1
      ⟨some " ", none, some "bogus", some "x", some "x", some "urgent"⟩ 0).1 (by decide) [],
   (updateTask_validation_precedence natParse 1 1
      ⟨some "ok", none, some "bogus", some "x", some "x", some "urgent"⟩ 0).2.1
     (by decide) (by decide) [],
   (updateTask_validation_precedence natParse 1 1
      ⟨some "ok", none, some "todo", some "x", some "x", some "urgent"⟩ 0).2.2.1
     (by decide) (by decide) (by decide) [],
   (updateTask_validation_precedence natParse 1 1
      ⟨some "ok", none, some "todo", some "x", some "x", some "high"⟩ 0).2.2.2.1
     (by decide) (by decide) (by decide) (by decide) [],
   (updateTask_validation_precedence natParse 1 1
      ⟨some "ok", none, some "todo", some "7", some "x", some "high"⟩ 0).2.2.2.2
     (by decide) (by decide) (by decide) (by decide) (by decide) []⟩

/-- C5: authentication failure is indistinguishable between an unknown email
(run 1) and a known email with a non-matching password hash (run 2): the two
runs return the very same result, an error with one generic message. -/
theorem login_failure_indistinguishable
    (hashMatch : String → String → Bool)
    (users₁ : List User) (email₁ password₁ : String)
    (users₂ : List User) (email₂ password₂ : String) (user : User)
    (h₁ : users₁.find? (fun u => u.email == email₁) = none)
    (h₂ : users₂.find? (fun u => u.email == email₂) = some user)
    (hmatch : hashMatch password₂ user.password_hash = false) :
    login hashMatch users₁ email₁ password₁ = login hashMatch users₂ email₂ password₂ ∧
    login hashMatch users₁ email₁ password₁ =
      .err 400 "Email ou mot de passe incorrect." := by
  simp [login, h₁, h₂, hmatch]

/-- C5 witness: a store holding one user with hash "H"; run 1 uses an unknown
email, run 2 the stored email with a rejected password. -/
theorem login_failure_indistinguishable_witness :
    login (fun _ _ => false) [] "x@y" "pw" =
      login (fun _ _ => false) [⟨1, "a@b", "H"⟩] "a@b" "pw" ∧
    login (fun _ _ => false) [] "x@y" "pw" =
      .err 400 "Email ou mot de passe incorrect." :=
  login_failure_indistinguishable (fun _ _ => false) [] "x@y" "pw"
    [⟨1, "a@b", "H"⟩] "a@b" "pw" ⟨1, "a@b", "H"⟩ rfl (by decide) rfl

/-- C7: a create request carrying only a title yields status 201 with a task
whose description is empty, status `todo`, priority `medium`, both dates null
and reminder flag false, and appends exactly that task to the store. -/
theorem createTask_title_only_defaults (uid : Nat) (title : String)
    (store : List Task) (newId : Nat) (now : Int) :
    createTask uid ⟨some title, none, none, none, none⟩ store newId now =
      (.ok 201 ⟨newId, uid, title, "", "todo", "medium", none, none, false, now, now⟩,
       store ++ [⟨newId, uid, title, "", "todo", "medium", none, none, false, now, now⟩]) := by
  rfl

/-- C2 counterexample data: a task due at instant 0, long before `now = 1000`. -/
def pastDueTask : Task :=
  ⟨1, 1, "t", "", "todo", "medium", some 0, none, false, 0, 0⟩

/-- C2 counterexample: at `now = 1000`, a task whose due date 0 lies strictly
before now is still returned by `listDueSoon` (the query has no lower bound),
contradicting the claim that no returned due date is before now. -/
theorem listDueSoon_returns_past_due :
    listDueSoon 1000 1 [pastDueTask] = [pastDueTask] ∧
    pastDueTask.due_date = some 0 ∧ (0 : Int) < 1000 := by
  refine ⟨rfl, rfl, by decide⟩

/-- C2 (amended): `listDueSoon` returns exactly the owner's tasks whose due
date is non-null and at most `now + 24h` — with no lower bound, so due dates
before now are included — whose status is not `done`, sorted by due date
ascending. -/
theorem listDueSoon_characterization (now : Int) (uid : Nat) (store : List Task) :
    (∀ t, t ∈ listDueSoon now uid store ↔
      t ∈ store ∧ t.user_id = uid ∧
      (∃ d, t.due_date = some d ∧ d ≤ now + hour24) ∧ t.status ≠ "done") ∧
    List.Sorted (fun a b => dueKey a ≤ dueKey b) (listDueSoon now uid store) := by
  constructor
  · intro t
    rw [listDueSoon, List.mem_insertionSort, List.mem_filter, dueSoonPred_iff]
  · haveI : IsTotal Task (fun a b => dueKey a ≤ dueKey b) := ⟨fun a b => le_total _ _⟩
    haveI : IsTrans Task (fun a b => dueKey a ≤ dueKey b) :=
      ⟨fun _ _ _ hab hbc => le_trans hab hbc⟩
    exact List.sorted_insertionSort _ _

/-- C6 counterexample data: a task whose reminder is due and unsent and whose
due date is already past, so one `checkReminders` pass emits both a reminder
and an overdue notification for it. -/
def doubleNotifiedTask : Task :=
  ⟨7, 1, "t", "", "todo", "medium", some 0, some 0, false, 0, 0⟩

/-- C6 counterexample: a single evaluation pass at `now = 1000` puts both a
`reminder` and an `overdue` entry for task 7 into the working set; dismissing
the task-7 reminder notification empties the set instead of leaving the
`overdue` entry, because dismissal filters on the task id alone, not on the
(task id, category) pair. -/
theorem dismiss_removes_other_categories :
    checkReminders 1000 [doubleNotifiedTask] [] =
      [⟨7, "Rappel: t", "reminder"⟩, ⟨7, "En retard: t", "overdue"⟩] ∧
    dismissNotification 7 (checkReminders 1000 [doubleNotifiedTask] []) = [] := by
  exact ⟨rfl, rfl⟩

/-- C6 (amended): the working set is a list of (task id, message, category)
entries, and dismissing a notification removes every entry carrying that task
id — including entries of other categories for the same task — and nothing
else. -/
theorem dismissNotification_removes_by_task_id (i : Nat) (ns : List Notification)
    (n : Notification) :
    n ∈ dismissNotification i ns ↔ n ∈ ns ∧ n.id ≠ i := by
  simp [dismissNotification]

/-- C8: on an owned task, `markReminderSent` succeeds with the reminder flag
set to true; calling it again on the resulting store succeeds with the same
row and leaves the store unchanged; and no call ever turns a true flag back to
false (the rewrite is monotone on `is_reminder_sent`, row by row). -/
theorem markReminderSent_idempotent (uid tid : Nat) (store : List Task) (task : Task)
    (hfound : store.find? (taskMatch tid uid) = some task) :
    ∃ s₁ t₁, markReminderSent uid tid store = (.ok 200 t₁, s₁) ∧
      t₁.is_reminder_sent = true ∧
      markReminderSent uid tid s₁ = (.ok 200 t₁, s₁) ∧
      List.Forall₂ (fun old new => old.is_reminder_sent = true → new.is_reminder_sent = true)
        store s₁ := by
  refine ⟨store.map (fun t => if taskMatch tid uid t then setReminderSent t else t),
    setReminderSent task, markReminderSent_found uid tid store task hfound, rfl, ?_, ?_⟩
  · have hfound₂ : (store.map (fun t => if taskMatch tid uid t then setReminderSent t else t)).find?
        (taskMatch tid uid) = some (setReminderSent task) := by
      rw [find?_map_if (taskMatch tid uid) setReminderSent (taskMatch_setReminderSent tid uid),
        hfound, Option.map_some']
    rw [markReminderSent_found uid tid _ (setReminderSent task) hfound₂]
    have hmap₂ : ((store.map (fun t => if taskMatch tid uid t then setReminderSent t else t)).map
        (fun t => if taskMatch tid uid t then setReminderSent t else t)) =
        store.map (fun t => if taskMatch tid uid t then setReminderSent t else t) := by
      rw [List.map_map]
      exact List.map_congr_left (fun a _ => markRewrite_idem uid tid a)
    rw [hmap₂]
    rfl
  · exact forall₂_map_self _
      (fun a h => by by_cases hm : taskMatch tid uid a = true <;> simp [hm, setReminderSent, h])
      store

/-- C8 witness. -/
theorem markReminderSent_idempotent_witness :
    ∃ s₁ t₁,
      markReminderSent 2 3
          ([⟨3, 2, "a", "", "todo", "medium", none, none, false, 0, 0⟩] : List Task) =
        (.ok 200 t₁, s₁) ∧
      t₁.is_reminder_sent = true ∧
      markReminderSent 2 3 s₁ = (.ok 200 t₁, s₁) ∧
      List.Forall₂
        (fun (old new : Task) => old.is_reminder_sent = true → new.is_reminder_sent = true)
        ([⟨3, 2, "a", "", "todo", "medium", none, none, false, 0, 0⟩] : List Task) s₁ :=
  markReminderSent_idempotent 2 3 [⟨3, 2, "a", "", "todo", "medium", none, none, false, 0, 0⟩]
    ⟨3, 2, "a", "", "todo", "medium", none, none, false, 0, 0⟩ (by decide)

/-- C10: a successful `markReminderSent` returns the found row with only the
reminder flag changed — every other field, the update timestamp included, is
exactly the found task's — and every non-matching row of the store is kept
as-is. -/
theorem markReminderSent_frame (uid tid : Nat) (store : List Task) (task : Task)
    (hfound : store.find? (taskMatch tid uid) = some task) :
    ∃ s₁ t₁, markReminderSent uid tid store = (.ok 200 t₁, s₁) ∧
      t₁.is_reminder_sent = true ∧
      t₁.id = task.id ∧ t₁.user_id = task.user_id ∧ t₁.title = task.title ∧
      t₁.description = task.description ∧ t₁.status = task.status ∧
      t₁.priority = task.priority ∧ t₁.due_date = task.due_date ∧
      t₁.reminder_date = task.reminder_date ∧
      t₁.created_at = task.created_at ∧ t₁.updated_at = task.updated_at ∧
      (∀ u ∈ store, taskMatch tid uid u = false → u ∈ s₁) := by
  refine ⟨_, setReminderSent task, markReminderSent_found uid tid store task hfound,
    rfl, rfl, rfl, rfl, rfl, rfl, rfl, rfl, rfl, rfl, rfl, ?_⟩
  intro u hu hm
  exact List.mem_map.mpr ⟨u, hu, by simp [hm]⟩

/-- C10 witness: a task with every field populated keeps them all. -/
theorem markReminderSent_frame_witness :
    ∃ s₁ t₁, markReminderSent 5 9
        [⟨9, 5, "b", "d", "in-progress", "high", some 11, some 12, false, 13, 14⟩] =
        (.ok 200 t₁, s₁) ∧
      t₁.is_reminder_sent = true ∧
      t₁.id = 9 ∧ t₁.user_id = 5 ∧ t₁.title = "b" ∧
      t₁.description = "d" ∧ t₁.status = "in-progress" ∧
      t₁.priority = "high" ∧ t₁.due_date = some 11 ∧
      t₁.reminder_date = some 12 ∧
      t₁.created_at = 13 ∧ t₁.updated_at = 14 ∧
      (∀ u ∈ [(⟨9, 5, "b", "d", "in-progress", "high", some 11, some 12, false, 13, 14⟩ : Task)],
        taskMatch 9 5 u = false → u ∈ s₁) :=
  markReminderSent_frame 5 9
    [⟨9, 5, "b", "d", "in-progress", "high", some 11, some 12, false, 13, 14⟩]
    ⟨9, 5, "b", "d", "in-progress", "high", some 11, some 12, false, 13, 14⟩ (by decide)

/-- C9: a successful update whose request omits description, priority and both
dates resets them to defaults — description becomes "", priority "medium",
due and reminder dates null — regardless of the task's previous values, and
rewrites the store accordingly. -/
theorem updateTask_omitted_fields_reset (parseDate : String → Option Int)
    (uid tid : Nat) (store : List Task) (now : Int) (task : Task)
    (title status : String)
    (hTr : ¬jsTrim title = "")
    (hSc : (["todo", "in-progress", "done"].contains status) = true)
    (hfound : store.find? (taskMatch tid uid) = some task) :
    updateTask parseDate uid tid ⟨some title, none, some status, none, none, none⟩ store now =
      (.ok 200 (updateRow (jsTrim title) "" status none none "medium" now task),
       store.map (fun t => if taskMatch tid uid t then
         updateRow (jsTrim title) "" status none none "medium" now t else t)) := by
  rw [updateTask_valid parseDate uid tid ⟨some title, none, some status, none, none, none⟩
    store now title status none none rfl hTr rfl hSc rfl rfl rfl]
  simp only [hfound]
  rw [find?_map_if (taskMatch tid uid) _
    (fun a => taskMatch_updateRow tid uid _ _ _ _ _ _ now a), hfound, Option.map_some']
  simp [jsOr]

/-- C9 witness: the previous description, priority and dates of the stored
task are all populated and all come back reset. -/
theorem updateTask_omitted_fields_reset_witness :
    updateTask natParse 1 2 ⟨some "new", none, some "todo", none, none, none⟩
        [⟨2, 1, "old", "olddesc", "done", "high", some 5, some 6, true, 3, 4⟩] 9 =
      (.ok 200 (updateRow (jsTrim "new") "" "todo" none none "medium" 9
         ⟨2, 1, "old", "olddesc", "done", "high", some 5, some 6, true, 3, 4⟩),
       [updateRow (jsTrim "new") "" "todo" none none "medium" 9
         ⟨2, 1, "old", "olddesc", "done", "high", some 5, some 6, true, 3, 4⟩]) := by
  have h := updateTask_omitted_fields_reset natParse 1 2
    [⟨2, 1, "old", "olddesc", "done", "high", some 5, some 6, true, 3, 4⟩] 9
    ⟨2, 1, "old", "olddesc", "done", "high", some 5, some 6, true, 3, 4⟩
    "new" "todo" (by decide) (by decide) (by decide)
  simpa using h

/-- C1: ownership isolation. If task ids are unique and a task belongs to
user A, then for any other user B: ListTasks for B excludes the task; an
UpdateTask by B on its id that passes all five validations, a DeleteTask by B,
and a MarkReminderSent by B all return 404 NotFound — never success, never
403 — and leave the store unchanged. -/
theorem ownership_isolation (A B : Nat) (task : Task) (store : List Task)
    (hAB : A ≠ B) (hOwner : task.user_id = A) (_hMem : task ∈ store)
    (hUnique : ∀ u ∈ store, u.id = task.id → u.user_id = task.user_id) :
    task ∉ listTasks B store ∧
    (∀ parseDate req now,
      titleMissing req = false → statusBad req = false → priorityBad req = false →
      dueDateBad parseDate req = false → reminderDateBad parseDate req = false →
      updateTask parseDate B task.id req store now =
        (.err 404 "Tâche non trouvée ou non autorisée.", store)) ∧
    deleteTask B task.id store = (.err 404 "Tâche non trouvée ou non autorisée.", store) ∧
    markReminderSent B task.id store =
      (.err 404 "Tâche non trouvée ou non autorisée.", store) := by
  have hNone : store.find? (taskMatch task.id B) = none := by
    rw [List.find?_eq_none]
    intro x hx
    simp only [taskMatch, Bool.and_eq_true, beq_iff_eq, not_and]
    intro hid hB
    exact hAB (by rw [← hOwner, ← hUnique x hx hid, hB])
  have hall : ∀ a ∈ store, taskMatch task.id B a = false := fun a ha => by
    have h := List.find?_eq_none.mp hNone a ha
    simpa using h
  refine ⟨?_, ?_, ?_, ?_⟩
  · rw [listTasks, List.mem_insertionSort, List.mem_filter]
    rintro ⟨-, hid⟩
    exact hAB (by rw [← hOwner]; exact (beq_iff_eq.mp hid).symm ▸ rfl)
  · intro parseDate req now h1 h2 h3 h4 h5
    obtain ⟨title, status, pdd, prd, hT, hTr, hS, hSc, hpd, hpr⟩ :=
      gates_pass_components parseDate req h1 h2 h4 h5
    rw [updateTask_valid parseDate B task.id req store now title status pdd prd
      hT hTr hS hSc h3 hpd hpr]
    simp only [hNone]
  · have hfil : store.filter (fun t => !taskMatch task.id B t) = store :=
      List.filter_eq_self.mpr (fun a ha => by simp [hall a ha])
    simp [deleteTask, hfil]
  · rw [markReminderSent]
    rw [map_if_eq_self (taskMatch task.id B) setReminderSent store hall]
    simp only [hNone]

/-- C1 witness: user 1 owns task 1; user 2 issues a fully valid update, a
delete and a mark-reminder-sent against it, and a list of their own tasks. -/
theorem ownership_isolation_witness :
    (⟨1, 1, "m", "", "todo", "medium", none, none, false, 0, 0⟩ : Task) ∉
      listTasks 2 [⟨1, 1, "m", "", "todo", "medium", none, none, false, 0, 0⟩] ∧
    updateTask natParse 2 1 ⟨some "x", none, some "todo", none, none, none⟩
        [⟨1, 1, "m", "", "todo", "medium", none, none, false, 0, 0⟩] 0 =
      (.err 404 "Tâche non trouvée ou non autorisée.",
       [⟨1, 1, "m", "", "todo", "medium", none, none, false, 0, 0⟩]) ∧
    deleteTask 2 1 [⟨1, 1, "m", "", "todo", "medium", none, none, false, 0, 0⟩] =
      (.err 404 "Tâche non trouvée ou non autorisée.",
       [⟨1, 1, "m", "", "todo", "medium", none, none, false, 0, 0⟩]) ∧
    markReminderSent 2 1 [⟨1, 1, "m", "", "todo", "medium", none, none, false, 0, 0⟩] =
      (.err 404 "Tâche non trouvée ou non autorisée.",
       [⟨1, 1, "m", "", "todo", "medium", none, none, false, 0, 0⟩]) := by
  obtain ⟨g1, g2, g3, g4⟩ := ownership_isolation 1 2
    ⟨1, 1, "m", "", "todo", "medium", none, none, false, 0, 0⟩
    [⟨1, 1, "m", "", "todo", "medium", none, none, false, 0, 0⟩]
    (by decide) rfl (by simp) (by intro u hu _; simp at hu; rw [hu])
  exact ⟨g1, g2 natParse ⟨some "x", none, some "todo", none, none, none⟩ 0
    (by decide) (by decide) (by decide) (by decide) (by decide), g3, g4⟩

/-- C4 counterexample: CreateTask performs no title validation, so a create
request whose title is the empty string succeeds with 201 and stores a task
whose title is blank after trimming — the claimed all-operations invariant
fails at the very first operation. -/
theorem createTask_stores_blank_title :
    createTask 1 ⟨some "", none, none, none, none⟩ [] 1 0 =
      (.ok 201 ⟨1, 1, "", "", "todo", "medium", none, none, false, 0, 0⟩,
       [⟨1, 1, "", "", "todo", "medium", none, none, false, 0, 0⟩]) ∧
    jsTrim (⟨1, 1, "", "", "todo", "medium", none, none, false, 0, 0⟩ : Task).title = "" := by
  exact ⟨rfl, rfl⟩

/-- C4 (amended): UpdateTask rejects requests whose title is missing or blank
after trimming and, on success, stores the trimmed — hence non-empty — title:
it preserves the invariant that no stored task has an empty title, and any row
it returns carries the trimmed request title, which is non-blank. (CreateTask,
by contrast, performs no title validation: see the counterexample.) -/
theorem updateTask_no_blank_title (parseDate : String → Option Int)
    (uid tid : Nat) (req : UpdateReq) (store : List Task) (now : Int)
    (hinv : ∀ t ∈ store, ¬t.title = "") :
    (∀ t ∈ (updateTask parseDate uid tid req store now).2, ¬t.title = "") ∧
    (∀ code t₁, (updateTask parseDate uid tid req store now).1 = .ok code t₁ →
      ∃ title, req.title = some title ∧ ¬jsTrim title = "" ∧ t₁.title = jsTrim title) := by
  by_cases h1 : titleMissing req = true
  · rw [updateTask_err_title parseDate uid tid req store now h1]
    exact ⟨hinv, fun code t₁ h => absurd h (by simp)⟩
  · replace h1 : titleMissing req = false := by simpa using h1
    by_cases h2 : statusBad req = true
    · rw [updateTask_err_status parseDate uid tid req store now h1 h2]
      exact ⟨hinv, fun code t₁ h => absurd h (by simp)⟩
    · replace h2 : statusBad req = false := by simpa using h2
      by_cases h3 : priorityBad req = true
      · rw [updateTask_err_priority parseDate uid tid req store now h1 h2 h3]
        exact ⟨hinv, fun code t₁ h => absurd h (by simp)⟩
      · replace h3 : priorityBad req = false := by simpa using h3
        by_cases h4 : dueDateBad parseDate req = true
        · rw [updateTask_err_due parseDate uid tid req store now h1 h2 h3 h4]
          exact ⟨hinv, fun code t₁ h => absurd h (by simp)⟩
        · replace h4 : dueDateBad parseDate req = false := by simpa using h4
          by_cases h5 : reminderDateBad parseDate req = true
          · rw [updateTask_err_reminder parseDate uid tid req store now h1 h2 h3 h4 h5]
            exact ⟨hinv, fun code t₁ h => absurd h (by simp)⟩
          · replace h5 : reminderDateBad parseDate req = false := by simpa using h5
            obtain ⟨title, status, pdd, prd, hT, hTr, hS, hSc, hpd, hpr⟩ :=
              gates_pass_components parseDate req h1 h2 h4 h5
            rw [updateTask_valid parseDate uid tid req store now title status pdd prd
              hT hTr hS hSc h3 hpd hpr]
            cases hfind : store.find? (taskMatch tid uid) with
            | none =>
              simp only [hfind]
              exact ⟨hinv, fun code t₁ h => absurd h (by simp)⟩
            | some task0 =>
              simp only [hfind]
              rw [find?_map_if (taskMatch tid uid) _
                (fun a => taskMatch_updateRow tid uid _ _ _ _ _ _ now a), hfind,
                Option.map_some']
              constructor
              · intro t ht
                obtain ⟨a, ha, rfl⟩ := List.mem_map.mp ht
                by_cases hm : taskMatch tid uid a = true
                · rw [if_pos hm]
                  exact fun he => hTr (by simpa [updateRow] using he)
                · rw [if_neg hm]
                  exact hinv a ha
              · intro code t₁ h
                refine ⟨title, hT, hTr, ?_⟩
                cases h
                rfl

/-- C4 (amended) witness: one blank-title store rejected, invariant carried
through a successful update. -/
theorem updateTask_no_blank_title_witness :
    (∀ t ∈ (updateTask natParse 1 1 ⟨some " x ", none, some "done", none, none, none⟩
        [⟨1, 1, "m", "", "todo", "medium", none, none, false, 0, 0⟩] 5).2,
      ¬t.title = "") ∧
    (∀ code t₁,
      (updateTask natParse 1 1 ⟨some " x ", none, some "done", none, none, none⟩
        [⟨1, 1, "m", "", "todo", "medium", none, none, false, 0, 0⟩] 5).1 = .ok code t₁ →
      ∃ title, (⟨some " x ", none, some "done", none, none, none⟩ : UpdateReq).title =
          some title ∧ ¬jsTrim title = "" ∧ t₁.title = jsTrim title) :=
  updateTask_no_blank_title natParse 1 1 ⟨some " x ", none, some "done", none, none, none⟩
    [⟨1, 1, "m", "", "todo", "medium", none, none, false, 0, 0⟩] 5
    (by intro t ht; simp at ht; rw [ht]; decide)

end Kanban
